import Mathlib

/-!
Shallow embedding of the SmartThings custom component
(`custom_components/smartthings/binary_sensor.py` and
`custom_components/smartthings/media_player.py`).

Identifiers (capabilities, attributes, device classes, feature-flag bits and
state constants) come from the `pysmartthings` and `homeassistant` libraries;
they are opaque string / integer constants, reproduced here with their library
values.  Attribute values in a device's status snapshot are JSON-like; the
shapes that occur in this component are strings, integers, lists of strings
and flat objects whose fields hold lists of strings, so `AttrValue` covers
exactly those.  Python exceptions are modelled with `Except Unit`; a Python
`None` value is modelled with `Option`.
-/

set_option autoImplicit false

namespace SmartThings

/-! ### Capability and attribute identifiers (pysmartthings constants) -/

namespace Capability

def media_playback : String := "mediaPlayback"
def switch : String := "switch"
def audio_volume : String := "audioVolume"
def media_playback_shuffle : String := "mediaPlaybackShuffle"
def media_input_source : String := "mediaInputSource"
def audio_mute : String := "audioMute"
def acceleration_sensor : String := "accelerationSensor"
def contact_sensor : String := "contactSensor"
def filter_status : String := "filterStatus"
def motion_sensor : String := "motionSensor"
def presence_sensor : String := "presenceSensor"
def sound_sensor : String := "soundSensor"
def tamper_alert : String := "tamperAlert"
def valve : String := "valve"
def water_sensor : String := "waterSensor"

end Capability

namespace Attribute

def mute : String := "mute"
def volume : String := "volume"
def playback_status : String := "playbackStatus"
def input_source : String := "inputSource"
def supported_input_sources : String := "supportedInputSources"
def playback_shuffle : String := "playbackShuffle"
def switch : String := "switch"
def acceleration : String := "acceleration"
def contact : String := "contact"
def filter_status : String := "filterStatus"
def motion : String := "motion"
def presence : String := "presence"
def sound : String := "sound"
def tamper : String := "tamper"
def valve : String := "valve"
def water : String := "water"

end Attribute

/-! ### Home Assistant constants -/

def DEVICE_CLASS_MOISTURE : String := "moisture"
def DEVICE_CLASS_MOTION : String := "motion"
def DEVICE_CLASS_MOVING : String := "moving"
def DEVICE_CLASS_OPENING : String := "opening"
def DEVICE_CLASS_PRESENCE : String := "presence"
def DEVICE_CLASS_PROBLEM : String := "problem"
def DEVICE_CLASS_SOUND : String := "sound"
def DEVICE_CLASS_SPEAKER : String := "speaker"

def SUPPORT_PAUSE : Nat := 1
def SUPPORT_VOLUME_SET : Nat := 4
def SUPPORT_VOLUME_MUTE : Nat := 8
def SUPPORT_TURN_ON : Nat := 128
def SUPPORT_TURN_OFF : Nat := 256
def SUPPORT_VOLUME_STEP : Nat := 1024
def SUPPORT_SELECT_SOURCE : Nat := 2048
def SUPPORT_STOP : Nat := 4096
def SUPPORT_PLAY : Nat := 16384
def SUPPORT_SHUFFLE_SET : Nat := 32768

/-- Home Assistant media-player states (`STATE_PLAYING`, `STATE_PAUSED`,
`STATE_ON`, `STATE_OFF`); a Python `None` state is `Option.none` around
this type. -/
inductive HAState where
  | playing
  | paused
  | on
  | off
  deriving DecidableEq, Repr

/-! ### Attribute values and the device status snapshot -/

/-- JSON-like attribute values as they occur in this component. -/
inductive AttrValue where
  | str (s : String)
  | num (n : Int)
  | listv (xs : List String)
  | obj (fields : List (String × List String))
  deriving DecidableEq, Repr

/-- The last-known attribute snapshot of a device, as an association list
from attribute identifier to value.  pysmartthings stores attribute values
in a `defaultdict` whose default entry carries value `None`, so reading an
absent attribute yields a Python `None` value: `getAttr` returns `none`
both for an absent entry and models that `None`. -/
structure DeviceStatus where
  attributes : List (String × AttrValue)
  deriving DecidableEq, Repr

def DeviceStatus.getAttr (st : DeviceStatus) (a : String) : Option AttrValue :=
  (st.attributes.find? (fun p => p.fst == a)).map Prod.snd

/-- The `status.update_attribute_value(attrib, value)` call of the external client:
a synchronous upsert into the snapshot (spec, external interfaces). -/
def DeviceStatus.update_attribute_value (st : DeviceStatus) (a : String)
    (v : AttrValue) : DeviceStatus :=
  ⟨(a, v) :: st.attributes.filter (fun p => ¬ p.fst = a)⟩

/-- Modelled from the spec: the external client's per-attribute "on" value,
used by `status.is_on(attrib)` (boolean interpretation of an attribute is
delegated to the external status object; the active-value spellings are the
pysmartthings `ATTRIBUTE_ON_VALUES` constants). -/
def attributeOnValues : List (String × String) :=
  [(Attribute.acceleration, "active"),
   (Attribute.contact, "open"),
   (Attribute.filter_status, "replace"),
   (Attribute.motion, "active"),
   (Attribute.mute, "muted"),
   (Attribute.playback_shuffle, "enabled"),
   (Attribute.presence, "present"),
   (Attribute.sound, "detected"),
   (Attribute.switch, "on"),
   (Attribute.tamper, "detected"),
   (Attribute.valve, "open"),
   (Attribute.water, "wet")]

/-- Modelled from the spec: `status.is_on(attrib) -> bool` of the external
client; true iff the attribute's raw value equals the attribute's "on"
value.  An absent attribute reads as `false`. -/
def DeviceStatus.is_on (st : DeviceStatus) (a : String) : Bool :=
  st.getAttr a == ((attributeOnValues.find? (fun p => p.fst == a)).map
    (fun p => AttrValue.str p.snd))

/-- Modelled from the spec: `status.switch` of the external client, the
boolean interpretation of the switch attribute. -/
def DeviceStatus.switchOn (st : DeviceStatus) : Bool :=
  st.is_on Attribute.switch

/-! ### binary_sensor.py: catalog tables and matcher -/

def CAPABILITY_TO_ATTRIB : List (String × String) :=
  [(Capability.acceleration_sensor, Attribute.acceleration),
   (Capability.contact_sensor, Attribute.contact),
   (Capability.filter_status, Attribute.filter_status),
   (Capability.motion_sensor, Attribute.motion),
   (Capability.presence_sensor, Attribute.presence),
   (Capability.sound_sensor, Attribute.sound),
   (Capability.tamper_alert, Attribute.tamper),
   (Capability.valve, Attribute.valve),
   (Capability.water_sensor, Attribute.water)]

def ATTRIB_TO_CLASS : List (String × String) :=
  [(Attribute.acceleration, DEVICE_CLASS_MOVING),
   (Attribute.contact, DEVICE_CLASS_OPENING),
   (Attribute.filter_status, DEVICE_CLASS_PROBLEM),
   (Attribute.motion, DEVICE_CLASS_MOTION),
   (Attribute.presence, DEVICE_CLASS_PRESENCE),
   (Attribute.sound, DEVICE_CLASS_SOUND),
   (Attribute.tamper, DEVICE_CLASS_PROBLEM),
   (Attribute.valve, DEVICE_CLASS_OPENING),
   (Attribute.water, DEVICE_CLASS_MOISTURE)]

/-- The seven semantic device classes used by the binary-sensor catalog. -/
def binarySensorDeviceClasses : List String :=
  [DEVICE_CLASS_MOISTURE, DEVICE_CLASS_MOTION, DEVICE_CLASS_MOVING,
   DEVICE_CLASS_OPENING, DEVICE_CLASS_PRESENCE, DEVICE_CLASS_PROBLEM,
   DEVICE_CLASS_SOUND]

namespace BinarySensor

/-- The binary-sensor `get_capabilities` matcher: every catalog capability that is also
in the device's capability set, in catalog (dict-insertion) order. -/
def get_capabilities (capabilities : List String) : List String :=
  (CAPABILITY_TO_ATTRIB.map Prod.fst).filter (fun c => c ∈ capabilities)

end BinarySensor

namespace SmartThingsBinarySensor

/-- The `SmartThingsBinarySensor.is_on` property: snapshot boolean interpretation of the
bound attribute. -/
def is_on (st : DeviceStatus) (attrib : String) : Bool :=
  st.is_on attrib

/-- The `SmartThingsBinarySensor.device_class` property: static catalog lookup
(`ATTRIB_TO_CLASS[self._attribute]`); `none` models a Python `KeyError`. -/
def device_class (attrib : String) : Option String :=
  (ATTRIB_TO_CLASS.find? (fun p => p.fst == attrib)).map Prod.snd

end SmartThingsBinarySensor

/-! ### media_player.py: constants and matcher -/

def CONTROLLABLE_SOURCES : List String := ["bluetooth", "wifi"]

/-- The `VALUE_TO_STATE` table; the value for key `"unknown"` is Python `None`. -/
def VALUE_TO_STATE : List (String × Option HAState) :=
  [("playing", some HAState.playing),
   ("paused", some HAState.paused),
   ("on", some HAState.on),
   ("off", some HAState.off),
   ("unknown", none)]

namespace MediaPlayerPlatform

def min_required : List String :=
  [Capability.media_playback, Capability.switch]

def all_supported : List String :=
  [Capability.switch, Capability.audio_volume,
   Capability.media_playback_shuffle, Capability.media_input_source,
   Capability.audio_mute, Capability.media_playback]

/-- The media-player `get_capabilities` matcher: the full fixed list iff at least one
minimum-required capability is present, else `None`. -/
def get_capabilities (capabilities : List String) : Option (List String) :=
  if min_required.any (fun c => decide (c ∈ capabilities)) then
    some all_supported
  else
    none

end MediaPlayerPlatform

/-! ### Python semantics helpers

`Except Unit α` models a Python expression that may raise; `Except.error ()`
is a raised exception (`TypeError` / `KeyError`). -/

/-- Python `x in l` for a list of strings `l`: equality-based membership;
never raises, and only a string value can match. -/
def pyInStrList (v : AttrValue) (l : List String) : Bool :=
  match v with
  | AttrValue.str s => decide (s ∈ l)
  | _ => false

/-- Python `x in d` for a dict with string keys, where `x` is an attribute
read (possibly `None`): key-hash membership; a list or object value is
unhashable and raises `TypeError`. -/
def pyInStrKeyedDict (v : Option AttrValue) (keys : List String) :
    Except Unit Bool :=
  match v with
  | none => Except.ok false
  | some (AttrValue.str s) => Except.ok (decide (s ∈ keys))
  | some (AttrValue.num _) => Except.ok false
  | some (AttrValue.listv _) => Except.error ()
  | some (AttrValue.obj _) => Except.error ()

/-- Python `int()` applied to a rational: truncation toward zero. -/
def pyInt (q : Rat) : Int :=
  if q < 0 then ⌈q⌉ else ⌊q⌋

/-! ### media_player.py: MediaPlayerCommand and ATTRIBUTE_ON_VALUES -/

namespace MediaPlayerCommand

def mute : String := "mute"
def unmute : String := "unmute"
def set_volume : String := "setVolume"
def volume_up : String := "volumeUp"
def volume_down : String := "volumeDown"
def play : String := "play"
def pause : String := "pause"
def stop : String := "stop"
def set_input_source : String := "setInputSource"
def set_playback_shuffle : String := "setPlaybackShuffle"

end MediaPlayerCommand

/-- The module-level `ATTRIBUTE_ON_VALUES` of media_player.py
(`{Attribute.playback_shuffle: 'enabled'}`). -/
def ATTRIBUTE_ON_VALUES : List (String × String) :=
  [(Attribute.playback_shuffle, "enabled")]

/-! ### media_player.py: MediaPlayerDeviceEntity

Read accessors take the device's status snapshot.  Command methods take the
snapshot, the remote command's acknowledgement (`ack`, the boolean result of
the suspending `self._device.command(...)` call) and the `set_status`
argument, and return the snapshot after the optimistic update together with
the returned boolean.  `volume_up` / `volume_down` may raise (they add to a
possibly-`None` attribute value), so they return `Except`. -/

namespace MediaPlayerDeviceEntity

def audio_mute (st : DeviceStatus) : Bool :=
  st.is_on Attribute.mute

def audio_volume (st : DeviceStatus) : Option AttrValue :=
  st.getAttr Attribute.volume

def playback_status (st : DeviceStatus) : Option AttrValue :=
  st.getAttr Attribute.playback_status

def input_source (st : DeviceStatus) : Option AttrValue :=
  st.getAttr Attribute.input_source

/-- The `supported_input_sources` accessor: reads the attribute, then
`if "value" in value: return value["value"]` — note that on a bare list the
`in` is membership and on anything non-container it raises; indexing a list
with the string `"value"` raises. -/
def supported_input_sources (st : DeviceStatus) : Except Unit AttrValue :=
  match st.getAttr Attribute.supported_input_sources with
  | none => Except.error ()
  | some (AttrValue.num _) => Except.error ()
  | some (AttrValue.str s) =>
    if "value".toList <:+: s.toList then Except.error ()
    else Except.ok (AttrValue.str s)
  | some (AttrValue.listv xs) =>
    if decide ("value" ∈ xs) then Except.error ()
    else Except.ok (AttrValue.listv xs)
  | some (AttrValue.obj fields) =>
    match fields.find? (fun p => p.fst == "value") with
    | some p => Except.ok (AttrValue.listv p.snd)
    | none => Except.ok (AttrValue.obj fields)

def playback_shuffle (st : DeviceStatus) : Bool :=
  st.getAttr Attribute.playback_shuffle ==
    ((ATTRIBUTE_ON_VALUES.find?
        (fun p => p.fst == Attribute.playback_shuffle)).map
      (fun p => AttrValue.str p.snd))

def media_title (st : DeviceStatus) : Option AttrValue :=
  st.getAttr "trackDescription"

def mute (st : DeviceStatus) (ack set_status : Bool) : DeviceStatus × Bool :=
  if ack && set_status then
    (st.update_attribute_value Attribute.mute (AttrValue.str "muted"), ack)
  else (st, ack)

def unmute (st : DeviceStatus) (ack set_status : Bool) :
    DeviceStatus × Bool :=
  if ack && set_status then
    (st.update_attribute_value Attribute.mute (AttrValue.str "unmuted"), ack)
  else (st, ack)

def set_volume (st : DeviceStatus) (volume : Int) (ack set_status : Bool) :
    DeviceStatus × Bool :=
  if ack && set_status then
    (st.update_attribute_value Attribute.volume (AttrValue.num volume), ack)
  else (st, ack)

def volume_up (st : DeviceStatus) (ack set_status : Bool) :
    Except Unit (DeviceStatus × Bool) :=
  if ack && set_status then
    match audio_volume st with
    | some (AttrValue.num n) =>
      Except.ok (st.update_attribute_value Attribute.volume
        (AttrValue.num (min (n + 1) 100)), ack)
    | _ => Except.error ()
  else Except.ok (st, ack)

def volume_down (st : DeviceStatus) (ack set_status : Bool) :
    Except Unit (DeviceStatus × Bool) :=
  if ack && set_status then
    match audio_volume st with
    | some (AttrValue.num n) =>
      Except.ok (st.update_attribute_value Attribute.volume
        (AttrValue.num (max (n - 1) 0)), ack)
    | _ => Except.error ()
  else Except.ok (st, ack)

def play (st : DeviceStatus) (ack set_status : Bool) : DeviceStatus × Bool :=
  if ack && set_status then
    (st.update_attribute_value Attribute.playback_status
      (AttrValue.str "playing"), ack)
  else (st, ack)

def pause (st : DeviceStatus) (ack set_status : Bool) :
    DeviceStatus × Bool :=
  if ack && set_status then
    (st.update_attribute_value Attribute.playback_status
      (AttrValue.str "paused"), ack)
  else (st, ack)

def stop (st : DeviceStatus) (ack set_status : Bool) : DeviceStatus × Bool :=
  if ack && set_status then
    (st.update_attribute_value Attribute.playback_status
      (AttrValue.str "paused"), ack)
  else (st, ack)

def set_input_source (st : DeviceStatus) (source : String)
    (ack set_status : Bool) : DeviceStatus × Bool :=
  if ack && set_status then
    (st.update_attribute_value Attribute.input_source
      (AttrValue.str source), ack)
  else (st, ack)

/-- The `set_playback_shuffle` command: the optimistic update writes the shuffle value
string into the playback-status attribute. -/
def set_playback_shuffle (st : DeviceStatus) (shuffle : Bool)
    (ack set_status : Bool) : DeviceStatus × Bool :=
  let shuffle_value :=
    if shuffle then
      (((ATTRIBUTE_ON_VALUES.find?
          (fun p => p.fst == Attribute.playback_shuffle)).map
        Prod.snd).getD "")
    else "disabled"
  if ack && set_status then
    (st.update_attribute_value Attribute.playback_status
      (AttrValue.str shuffle_value), ack)
  else (st, ack)

end MediaPlayerDeviceEntity

/-! ### external DeviceEntity commands used directly by the projector -/

namespace DeviceEntity

/-- Modelled from the spec: the external client's device-level
`switch_on(set_status)`; on an acknowledged command the optimistic update
is switch = on (spec command table). -/
def switch_on (st : DeviceStatus) (ack set_status : Bool) :
    DeviceStatus × Bool :=
  if ack && set_status then
    (st.update_attribute_value Attribute.switch (AttrValue.str "on"), ack)
  else (st, ack)

/-- Modelled from the spec: the external client's device-level
`switch_off(set_status)`; optimistic update switch = off. -/
def switch_off (st : DeviceStatus) (ack set_status : Bool) :
    DeviceStatus × Bool :=
  if ack && set_status then
    (st.update_attribute_value Attribute.switch (AttrValue.str "off"), ack)
  else (st, ack)

/-- Modelled from the spec: the device-level `stop(set_status)` called by
`async_media_stop` (`self._device.stop`), per the spec's command table
(remote command stop; optimistic update playback-status = paused). -/
def stop (st : DeviceStatus) (ack set_status : Bool) : DeviceStatus × Bool :=
  if ack && set_status then
    (st.update_attribute_value Attribute.playback_status
      (AttrValue.str "paused"), ack)
  else (st, ack)

end DeviceEntity

/-! ### media_player.py: SmartThingsMediaPlayer -/

/-- The projector's state: the referenced device's capability set and
status snapshot, plus the feature-flag bitset stored at construction. -/
structure MediaPlayer where
  capabilities : List String
  status : DeviceStatus
  supported_features : Nat
  deriving DecidableEq, Repr

namespace SmartThingsMediaPlayer

/-- The `_supported_features` computation of `__init__`. -/
def featuresOf (capabilities : List String) : Nat :=
  let f := SUPPORT_PLAY ||| SUPPORT_PAUSE ||| SUPPORT_STOP
  let f := if Capability.audio_volume ∈ capabilities then
      f ||| SUPPORT_VOLUME_SET ||| SUPPORT_VOLUME_STEP else f
  let f := if Capability.audio_mute ∈ capabilities then
      f ||| SUPPORT_VOLUME_MUTE else f
  let f := if Capability.switch ∈ capabilities then
      f ||| SUPPORT_TURN_ON ||| SUPPORT_TURN_OFF else f
  let f := if Capability.media_input_source ∈ capabilities then
      f ||| SUPPORT_SELECT_SOURCE else f
  let f := if Capability.media_playback_shuffle ∈ capabilities then
      f ||| SUPPORT_SHUFFLE_SET else f
  f

/-- Construction (`__init__`): the projector for a device. -/
def init (capabilities : List String) (st : DeviceStatus) : MediaPlayer :=
  ⟨capabilities, st, featuresOf capabilities⟩

def supported_features (mp : MediaPlayer) : Nat :=
  mp.supported_features

def device_class (_mp : MediaPlayer) : String :=
  DEVICE_CLASS_SPEAKER

def is_volume_muted (mp : MediaPlayer) : Option Bool :=
  if mp.supported_features &&& SUPPORT_VOLUME_MUTE ≠ 0 then
    some (MediaPlayerDeviceEntity.audio_mute mp.status)
  else none

/-- The `volume_level` property: `audio_volume() / 100` — raises unless the raw value is
a number (in particular on a missing attribute, whose value is `None`). -/
def volume_level (mp : MediaPlayer) : Except Unit (Option Rat) :=
  if mp.supported_features &&& SUPPORT_VOLUME_SET ≠ 0 then
    match MediaPlayerDeviceEntity.audio_volume mp.status with
    | some (AttrValue.num n) => Except.ok (some ((n : Rat) / 100))
    | _ => Except.error ()
  else Except.ok none

def source (mp : MediaPlayer) : Option AttrValue :=
  if mp.supported_features &&& SUPPORT_SELECT_SOURCE ≠ 0 then
    MediaPlayerDeviceEntity.input_source mp.status
  else none

def source_list (mp : MediaPlayer) : Except Unit (Option AttrValue) :=
  if mp.supported_features &&& SUPPORT_SELECT_SOURCE ≠ 0 then
    (MediaPlayerDeviceEntity.supported_input_sources mp.status).map some
  else Except.ok none

def shuffle (mp : MediaPlayer) : Option Bool :=
  if mp.supported_features &&& SUPPORT_SHUFFLE_SET ≠ 0 then
    some (MediaPlayerDeviceEntity.playback_shuffle mp.status)
  else none

/-- The three-tier `state` property.  The result is a Python value: `none`
is the Python `None` state (`VALUE_TO_STATE["unknown"]`). -/
def state (mp : MediaPlayer) : Except Unit (Option HAState) :=
  if mp.status.switchOn then
    match source mp with
    | some v =>
      if pyInStrList v CONTROLLABLE_SOURCES then
        match pyInStrKeyedDict (MediaPlayerDeviceEntity.playback_status mp.status)
            (VALUE_TO_STATE.map Prod.fst) with
        | Except.error e => Except.error e
        | Except.ok true =>
          match MediaPlayerDeviceEntity.playback_status mp.status with
          | some (AttrValue.str s) =>
            Except.ok (((VALUE_TO_STATE.find? (fun q => q.fst == s)).map
              Prod.snd).getD none)
          | _ => Except.ok (some HAState.on)
        | Except.ok false => Except.ok (some HAState.on)
      else Except.ok (some HAState.on)
    | none => Except.ok (some HAState.on)
  else Except.ok (some HAState.off)

/-- The `media_title` property: surfaced only when `state` is PLAYING or PAUSED. -/
def media_title (mp : MediaPlayer) : Except Unit (Option AttrValue) :=
  match state mp with
  | Except.error e => Except.error e
  | Except.ok s =>
    if s = some HAState.playing ∨ s = some HAState.paused then
      Except.ok (MediaPlayerDeviceEntity.media_title mp.status)
    else Except.ok none

/-! Command methods.  Each takes the acknowledgement of the remote command
as `ack` and returns the projector after the call together with whether a
re-render was requested of the host framework
(`async_schedule_update_ha_state`). -/

def async_turn_off (mp : MediaPlayer) (ack : Bool) :
    Except Unit (MediaPlayer × Bool) :=
  let r := DeviceEntity.switch_off mp.status ack true
  Except.ok ({ mp with status := r.fst }, true)

def async_turn_on (mp : MediaPlayer) (ack : Bool) :
    Except Unit (MediaPlayer × Bool) :=
  let r := DeviceEntity.switch_on mp.status ack true
  Except.ok ({ mp with status := r.fst }, true)

def async_mute_volume (mp : MediaPlayer) (muteArg : Bool) (ack : Bool) :
    Except Unit (MediaPlayer × Bool) :=
  let r :=
    if muteArg then MediaPlayerDeviceEntity.mute mp.status ack true
    else MediaPlayerDeviceEntity.unmute mp.status ack true
  Except.ok ({ mp with status := r.fst }, true)

def async_set_volume_level (mp : MediaPlayer) (volume : Rat) (ack : Bool) :
    Except Unit (MediaPlayer × Bool) :=
  let r := MediaPlayerDeviceEntity.set_volume mp.status
    (pyInt (volume * 100)) ack true
  Except.ok ({ mp with status := r.fst }, true)

def async_volume_up (mp : MediaPlayer) (ack : Bool) :
    Except Unit (MediaPlayer × Bool) :=
  match MediaPlayerDeviceEntity.volume_up mp.status ack true with
  | Except.error e => Except.error e
  | Except.ok r => Except.ok ({ mp with status := r.fst }, true)

def async_volume_down (mp : MediaPlayer) (ack : Bool) :
    Except Unit (MediaPlayer × Bool) :=
  match MediaPlayerDeviceEntity.volume_down mp.status ack true with
  | Except.error e => Except.error e
  | Except.ok r => Except.ok ({ mp with status := r.fst }, true)

def async_media_play (mp : MediaPlayer) (ack : Bool) :
    Except Unit (MediaPlayer × Bool) :=
  let r := MediaPlayerDeviceEntity.play mp.status ack true
  Except.ok ({ mp with status := r.fst }, true)

def async_media_pause (mp : MediaPlayer) (ack : Bool) :
    Except Unit (MediaPlayer × Bool) :=
  let r := MediaPlayerDeviceEntity.pause mp.status ack true
  Except.ok ({ mp with status := r.fst }, true)

def async_media_stop (mp : MediaPlayer) (ack : Bool) :
    Except Unit (MediaPlayer × Bool) :=
  let r := DeviceEntity.stop mp.status ack true
  Except.ok ({ mp with status := r.fst }, true)

def async_select_source (mp : MediaPlayer) (src : String) (ack : Bool) :
    Except Unit (MediaPlayer × Bool) :=
  let r := MediaPlayerDeviceEntity.set_input_source mp.status src ack true
  Except.ok ({ mp with status := r.fst }, true)

def async_set_shuffle (mp : MediaPlayer) (sh : Bool) (ack : Bool) :
    Except Unit (MediaPlayer × Bool) :=
  let r := MediaPlayerDeviceEntity.set_playback_shuffle mp.status sh ack true
  Except.ok ({ mp with status := r.fst }, true)

end SmartThingsMediaPlayer

/-! ### Result-extraction helpers for command outcomes -/

/-- The projector after a command outcome (unchanged if it raised). -/
def playerAfter (mp : MediaPlayer) (e : Except Unit (MediaPlayer × Bool)) :
    MediaPlayer :=
  match e with
  | Except.ok p => p.fst
  | Except.error _ => mp

/-- The feature bitset after a command outcome. -/
def featuresAfter (mp : MediaPlayer) (e : Except Unit (MediaPlayer × Bool)) :
    Nat :=
  (playerAfter mp e).supported_features

/-- Whether a command outcome requested a re-render (a raised exception
propagates before the request is made). -/
def rerenderAfter (e : Except Unit (MediaPlayer × Bool)) : Bool :=
  match e with
  | Except.ok p => p.snd
  | Except.error _ => false

/-- Values that a Python dict-membership test accepts as keys without
raising (everything occurring here except lists and objects). -/
def pyHashable : Option AttrValue → Bool
  | some (AttrValue.listv _) => false
  | some (AttrValue.obj _) => false
  | _ => true

/-- Mirrors the amended three-tier state-derivation claim, written from the
(amended) spec words: switch off wins; with switch on and the flag-gated
current source one of the two controllable sources and playback-status one
of the five recognized values, the state is the mapped value (with
`"unknown"` mapping to the absent state `none`); otherwise ON. -/
def stateDerivationSpec (capabilities : List String) (st : DeviceStatus) :
    Option HAState :=
  let src := if Capability.media_input_source ∈ capabilities then
      st.getAttr Attribute.input_source else none
  if st.switchOn then
    match src with
    | some (AttrValue.str s) =>
      if s ∈ CONTROLLABLE_SOURCES then
        match st.getAttr Attribute.playback_status with
        | some (AttrValue.str p) =>
          match (VALUE_TO_STATE.find? (fun q => q.fst == p)).map Prod.snd with
          | some v => v
          | none => some HAState.on
        | _ => some HAState.on
      else some HAState.on
    | _ => some HAState.on
  else some HAState.off

/-! ## Helper lemmas -/

theorem find?_filter_ne {l : List (String × AttrValue)} {a b : String}
    (h : ¬ b = a) :
    (l.filter (fun p => ¬ p.fst = a)).find? (fun p => p.fst == b) =
      l.find? (fun p => p.fst == b) := by
  rw [List.find?_filter]
  congr 1
  funext p
  by_cases hp : p.fst = a
  · have hb : (p.fst == b) = false :=
      beq_eq_false_iff_ne.mpr (by rw [hp]; exact fun hc => h hc.symm)
    simp [hp, hb]
    exact fun hc => h hc.symm
  · by_cases hq : p.fst = b <;> simp [hp, hq] <;> exact h

theorem getAttr_update_same (st : DeviceStatus) (a : String) (v : AttrValue) :
    (st.update_attribute_value a v).getAttr a = some v := by
  show ((((a, v) :: st.attributes.filter fun p => ¬ p.fst = a).find?
      (fun p => p.fst == a)).map Prod.snd) = some v
  rw [List.find?_cons_of_pos _ (by simp)]
  rfl

theorem getAttr_update_ne (st : DeviceStatus) (a b : String) (v : AttrValue)
    (h : ¬ b = a) :
    (st.update_attribute_value a v).getAttr b = st.getAttr b := by
  show ((((a, v) :: st.attributes.filter fun p => ¬ p.fst = a).find?
      (fun p => p.fst == b)).map Prod.snd) =
    (st.attributes.find? (fun p => p.fst == b)).map Prod.snd
  rw [List.find?_cons_of_neg _
    (by simp only [beq_iff_eq]; exact fun hc => h hc.symm),
    find?_filter_ne h]

namespace SmartThingsMediaPlayer

theorem flag_base (caps : List String) :
    featuresOf caps &&& SUPPORT_PLAY ≠ 0 ∧
    featuresOf caps &&& SUPPORT_PAUSE ≠ 0 ∧
    featuresOf caps &&& SUPPORT_STOP ≠ 0 := by
  simp only [featuresOf]
  split_ifs <;> exact ⟨by decide, by decide, by decide⟩

theorem flag_volume_set (caps : List String) :
    (featuresOf caps &&& SUPPORT_VOLUME_SET ≠ 0) ↔
      Capability.audio_volume ∈ caps := by
  simp only [featuresOf]
  split_ifs <;> simp_all <;> decide

theorem flag_volume_step (caps : List String) :
    (featuresOf caps &&& SUPPORT_VOLUME_STEP ≠ 0) ↔
      Capability.audio_volume ∈ caps := by
  simp only [featuresOf]
  split_ifs <;> simp_all <;> decide

theorem flag_volume_mute (caps : List String) :
    (featuresOf caps &&& SUPPORT_VOLUME_MUTE ≠ 0) ↔
      Capability.audio_mute ∈ caps := by
  simp only [featuresOf]
  split_ifs <;> simp_all <;> decide

theorem flag_turn_on (caps : List String) :
    (featuresOf caps &&& SUPPORT_TURN_ON ≠ 0) ↔
      Capability.switch ∈ caps := by
  simp only [featuresOf]
  split_ifs <;> simp_all <;> decide

theorem flag_turn_off (caps : List String) :
    (featuresOf caps &&& SUPPORT_TURN_OFF ≠ 0) ↔
      Capability.switch ∈ caps := by
  simp only [featuresOf]
  split_ifs <;> simp_all <;> decide

theorem flag_select_source (caps : List String) :
    (featuresOf caps &&& SUPPORT_SELECT_SOURCE ≠ 0) ↔
      Capability.media_input_source ∈ caps := by
  simp only [featuresOf]
  split_ifs <;> simp_all <;> decide

theorem flag_shuffle_set (caps : List String) :
    (featuresOf caps &&& SUPPORT_SHUFFLE_SET ≠ 0) ↔
      Capability.media_playback_shuffle ∈ caps := by
  simp only [featuresOf]
  split_ifs <;> simp_all <;> decide

theorem featuresOf_set_congr (caps caps2 : List String)
    (hset : ∀ c, c ∈ caps ↔ c ∈ caps2) :
    featuresOf caps = featuresOf caps2 := by
  unfold featuresOf
  simp only [hset Capability.audio_volume, hset Capability.audio_mute,
    hset Capability.switch, hset Capability.media_input_source,
    hset Capability.media_playback_shuffle]

end SmartThingsMediaPlayer

/-! ## Claim theorems -/

/-- Claim C5: the binary-sensor matcher returns exactly the capabilities of
the device's set that appear in the nine-entry catalog, in catalog order
(as a sublist of the catalog's key order), and it is idempotent. -/
theorem binary_sensor_match_correct (C : List String) :
    (∀ x, x ∈ BinarySensor.get_capabilities C ↔
        (x ∈ CAPABILITY_TO_ATTRIB.map Prod.fst ∧ x ∈ C)) ∧
    (BinarySensor.get_capabilities C).Sublist
      (CAPABILITY_TO_ATTRIB.map Prod.fst) ∧
    BinarySensor.get_capabilities (BinarySensor.get_capabilities C) =
      BinarySensor.get_capabilities C := by
  refine ⟨?_, ?_, ?_⟩
  · intro x
    simp [BinarySensor.get_capabilities, List.mem_filter]
  · exact List.filter_sublist _
  · unfold BinarySensor.get_capabilities
    apply List.filter_congr
    intro x hx
    rw [decide_eq_decide]
    simp [List.mem_filter, hx]

/-- Claim C6: the media-player matcher returns a (fixed, non-empty) result
exactly when the capability set contains media playback or switch, and the
result never depends on which optional capabilities are present. -/
theorem media_player_match_correct (C : List String) :
    (MediaPlayerPlatform.get_capabilities C =
      if Capability.media_playback ∈ C ∨ Capability.switch ∈ C then
        some MediaPlayerPlatform.all_supported
      else none) ∧
    MediaPlayerPlatform.all_supported ≠ [] := by
  constructor
  · simp only [MediaPlayerPlatform.get_capabilities,
      MediaPlayerPlatform.min_required, List.any_cons, List.any_nil,
      Bool.or_false]
    by_cases h1 : Capability.media_playback ∈ C <;>
      by_cases h2 : Capability.switch ∈ C <;> simp [h1, h2]
  · simp [MediaPlayerPlatform.all_supported]

/-- Claim C10: every attribute in the binary-sensor capability catalog is a
key of the attribute-to-device-class table, so `device_class` always
succeeds and yields one of the seven semantic device classes. -/
theorem binary_sensor_device_class_total :
    CAPABILITY_TO_ATTRIB.all (fun p =>
      match SmartThingsBinarySensor.device_class p.snd with
      | some cls => binarySensorDeviceClasses.contains cls
      | none => false) = true := by decide

/-- Claim C4: on an acknowledged command, `stop` optimistically writes the
string "paused" (never "stopped") into the playback-status attribute, and
`set_playback_shuffle` writes "enabled"/"disabled" into the playback-status
attribute while leaving the shuffle attribute untouched. -/
theorem stop_shuffle_optimistic_target (st : DeviceStatus) (b : Bool) :
    ((MediaPlayerDeviceEntity.stop st true true).fst.getAttr
        Attribute.playback_status = some (AttrValue.str "paused")) ∧
    ((MediaPlayerDeviceEntity.stop st true true).fst.getAttr
        Attribute.playback_status ≠ some (AttrValue.str "stopped")) ∧
    ((MediaPlayerDeviceEntity.set_playback_shuffle st true true
        true).fst.getAttr Attribute.playback_status =
      some (AttrValue.str "enabled")) ∧
    ((MediaPlayerDeviceEntity.set_playback_shuffle st false true
        true).fst.getAttr Attribute.playback_status =
      some (AttrValue.str "disabled")) ∧
    ((MediaPlayerDeviceEntity.set_playback_shuffle st b true
        true).fst.getAttr Attribute.playback_shuffle =
      st.getAttr Attribute.playback_shuffle) := by
  have h1 : (MediaPlayerDeviceEntity.stop st true true).fst =
      st.update_attribute_value Attribute.playback_status
        (AttrValue.str "paused") := rfl
  have h2 : ∀ c : Bool,
      (MediaPlayerDeviceEntity.set_playback_shuffle st c true true).fst =
        st.update_attribute_value Attribute.playback_status
          (AttrValue.str (if c then "enabled" else "disabled")) := by
    intro c
    cases c <;> rfl
  refine ⟨?_, ?_, ?_, ?_, ?_⟩
  · rw [h1, getAttr_update_same]
  · rw [h1, getAttr_update_same]
    simp
  · rw [h2 true, getAttr_update_same]
    rfl
  · rw [h2 false, getAttr_update_same]
    rfl
  · rw [h2 b]
    exact getAttr_update_ne st Attribute.playback_status
      Attribute.playback_shuffle _ (by decide)

/-- Claim C2 (amended): when the remote command acknowledgement is false no
snapshot attribute is mutated — every readable property keeps its pre-call
value because the projector is returned unchanged — but, contrary to the
original claim, the re-render request is still issued unconditionally. -/
theorem failed_command_leaves_snapshot (mp : MediaPlayer) (m b : Bool)
    (v : Rat) (s : String) :
    SmartThingsMediaPlayer.async_turn_on mp false = Except.ok (mp, true) ∧
    SmartThingsMediaPlayer.async_turn_off mp false = Except.ok (mp, true) ∧
    SmartThingsMediaPlayer.async_mute_volume mp m false =
      Except.ok (mp, true) ∧
    SmartThingsMediaPlayer.async_set_volume_level mp v false =
      Except.ok (mp, true) ∧
    SmartThingsMediaPlayer.async_volume_up mp false = Except.ok (mp, true) ∧
    SmartThingsMediaPlayer.async_volume_down mp false =
      Except.ok (mp, true) ∧
    SmartThingsMediaPlayer.async_media_play mp false =
      Except.ok (mp, true) ∧
    SmartThingsMediaPlayer.async_media_pause mp false =
      Except.ok (mp, true) ∧
    SmartThingsMediaPlayer.async_media_stop mp false =
      Except.ok (mp, true) ∧
    SmartThingsMediaPlayer.async_select_source mp s false =
      Except.ok (mp, true) ∧
    SmartThingsMediaPlayer.async_set_shuffle mp b false =
      Except.ok (mp, true) := by
  refine ⟨rfl, rfl, ?_, rfl, rfl, rfl, rfl, rfl, rfl, rfl, ?_⟩
  · cases m <;> rfl
  · cases b <;> rfl

/-- Claim C2 counterexample: a failed (unacknowledged) command still issues
a re-render request to the host framework, refuting the claim that no
re-render happens. -/
theorem failed_command_still_rerenders :
    rerenderAfter (SmartThingsMediaPlayer.async_turn_on
      (SmartThingsMediaPlayer.init [Capability.switch] ⟨[]⟩) false) =
      true := rfl

/-- Claim C7: the feature-flag bitset is a pure function of the capability
set (equal sets give equal flags), is derived at construction by the
documented rules (base play/pause/stop, each optional flag iff its gating
capability is present), and is never changed by any command operation. -/
theorem feature_flags_pure_and_immutable (caps caps2 : List String)
    (st : DeviceStatus) (mp : MediaPlayer) (v : Rat) (s : String)
    (m b ack : Bool) (hset : ∀ c, c ∈ caps ↔ c ∈ caps2) :
    SmartThingsMediaPlayer.featuresOf caps =
      SmartThingsMediaPlayer.featuresOf caps2 ∧
    (SmartThingsMediaPlayer.init caps st).supported_features =
      SmartThingsMediaPlayer.featuresOf caps ∧
    (SmartThingsMediaPlayer.featuresOf caps &&& SUPPORT_PLAY ≠ 0 ∧
      SmartThingsMediaPlayer.featuresOf caps &&& SUPPORT_PAUSE ≠ 0 ∧
      SmartThingsMediaPlayer.featuresOf caps &&& SUPPORT_STOP ≠ 0) ∧
    ((SmartThingsMediaPlayer.featuresOf caps &&& SUPPORT_VOLUME_SET ≠ 0) ↔
      Capability.audio_volume ∈ caps) ∧
    ((SmartThingsMediaPlayer.featuresOf caps &&& SUPPORT_VOLUME_STEP ≠ 0) ↔
      Capability.audio_volume ∈ caps) ∧
    ((SmartThingsMediaPlayer.featuresOf caps &&& SUPPORT_VOLUME_MUTE ≠ 0) ↔
      Capability.audio_mute ∈ caps) ∧
    ((SmartThingsMediaPlayer.featuresOf caps &&& SUPPORT_TURN_ON ≠ 0) ↔
      Capability.switch ∈ caps) ∧
    ((SmartThingsMediaPlayer.featuresOf caps &&& SUPPORT_TURN_OFF ≠ 0) ↔
      Capability.switch ∈ caps) ∧
    ((SmartThingsMediaPlayer.featuresOf caps &&& SUPPORT_SELECT_SOURCE ≠ 0) ↔
      Capability.media_input_source ∈ caps) ∧
    ((SmartThingsMediaPlayer.featuresOf caps &&& SUPPORT_SHUFFLE_SET ≠ 0) ↔
      Capability.media_playback_shuffle ∈ caps) ∧
    featuresAfter mp (SmartThingsMediaPlayer.async_turn_on mp ack) =
      mp.supported_features ∧
    featuresAfter mp (SmartThingsMediaPlayer.async_turn_off mp ack) =
      mp.supported_features ∧
    featuresAfter mp (SmartThingsMediaPlayer.async_mute_volume mp m ack) =
      mp.supported_features ∧
    featuresAfter mp
        (SmartThingsMediaPlayer.async_set_volume_level mp v ack) =
      mp.supported_features ∧
    featuresAfter mp (SmartThingsMediaPlayer.async_volume_up mp ack) =
      mp.supported_features ∧
    featuresAfter mp (SmartThingsMediaPlayer.async_volume_down mp ack) =
      mp.supported_features ∧
    featuresAfter mp (SmartThingsMediaPlayer.async_media_play mp ack) =
      mp.supported_features ∧
    featuresAfter mp (SmartThingsMediaPlayer.async_media_pause mp ack) =
      mp.supported_features ∧
    featuresAfter mp (SmartThingsMediaPlayer.async_media_stop mp ack) =
      mp.supported_features ∧
    featuresAfter mp (SmartThingsMediaPlayer.async_select_source mp s ack) =
      mp.supported_features ∧
    featuresAfter mp (SmartThingsMediaPlayer.async_set_shuffle mp b ack) =
      mp.supported_features := by
  refine ⟨SmartThingsMediaPlayer.featuresOf_set_congr caps caps2 hset, rfl,
    SmartThingsMediaPlayer.flag_base caps,
    SmartThingsMediaPlayer.flag_volume_set caps,
    SmartThingsMediaPlayer.flag_volume_step caps,
    SmartThingsMediaPlayer.flag_volume_mute caps,
    SmartThingsMediaPlayer.flag_turn_on caps,
    SmartThingsMediaPlayer.flag_turn_off caps,
    SmartThingsMediaPlayer.flag_select_source caps,
    SmartThingsMediaPlayer.flag_shuffle_set caps,
    rfl, rfl, rfl, rfl, ?_, ?_, rfl, rfl, rfl, rfl, rfl⟩
  · cases hvu : MediaPlayerDeviceEntity.volume_up mp.status ack true <;>
      simp [featuresAfter, playerAfter,
        SmartThingsMediaPlayer.async_volume_up, hvu]
  · cases hvd : MediaPlayerDeviceEntity.volume_down mp.status ack true <;>
      simp [featuresAfter, playerAfter,
        SmartThingsMediaPlayer.async_volume_down, hvd]

/-- Claim C1 counterexample: with switch on, source "bluetooth" and
playback-status "unknown" the state read returns the Python `None` state
(`VALUE_TO_STATE["unknown"]`), not ON as the claim asserts. -/
theorem state_unknown_is_none :
    SmartThingsMediaPlayer.state (SmartThingsMediaPlayer.init
        [Capability.media_input_source]
        ⟨[(Attribute.switch, AttrValue.str "on"),
          (Attribute.input_source, AttrValue.str "bluetooth"),
          (Attribute.playback_status, AttrValue.str "unknown")]⟩) =
      Except.ok none ∧
    (Except.ok none : Except Unit (Option HAState)) ≠
      Except.ok (some HAState.on) :=
  ⟨rfl, by simp⟩

/-- Claim C1 (amended): the three-tier state derivation, for every snapshot
whose playback-status value is hashable: switch off wins with OFF; with
switch on and the flag-gated current source one of the two controllable
sources and playback-status one of the five recognized keys, the state is
the mapped value — "unknown" mapping to the absent state `none`, not ON;
otherwise the state is ON. -/
theorem state_three_tier (caps : List String) (st : DeviceStatus)
    (h : pyHashable (st.getAttr Attribute.playback_status) = true) :
    SmartThingsMediaPlayer.state (SmartThingsMediaPlayer.init caps st) =
      Except.ok (stateDerivationSpec caps st) := by
  have hsrc : SmartThingsMediaPlayer.source
      (SmartThingsMediaPlayer.init caps st) =
      (if Capability.media_input_source ∈ caps then
        st.getAttr Attribute.input_source else none) := by
    unfold SmartThingsMediaPlayer.source MediaPlayerDeviceEntity.input_source
    have hfeat : (SmartThingsMediaPlayer.init caps st).supported_features =
        SmartThingsMediaPlayer.featuresOf caps := rfl
    have hst0 : (SmartThingsMediaPlayer.init caps st).status = st := rfl
    rw [hfeat, hst0]
    by_cases hm : Capability.media_input_source ∈ caps
    · rw [if_pos ((SmartThingsMediaPlayer.flag_select_source caps).mpr hm),
        if_pos hm]
    · rw [if_neg
        (fun hc => hm ((SmartThingsMediaPlayer.flag_select_source caps).mp
          hc)),
        if_neg hm]
  unfold SmartThingsMediaPlayer.state
  rw [hsrc]
  have hstat : (SmartThingsMediaPlayer.init caps st).status = st := rfl
  rw [hstat]
  unfold stateDerivationSpec MediaPlayerDeviceEntity.playback_status
  cases hsw : st.switchOn with
  | false => simp [hsw]
  | true =>
    simp only [hsw, if_true]
    by_cases hm : Capability.media_input_source ∈ caps
    · simp only [hm, if_true]
      cases hv : st.getAttr Attribute.input_source with
      | none => simp [pyInStrList]
      | some av =>
        cases av with
        | str s2 =>
          by_cases hcs : s2 ∈ CONTROLLABLE_SOURCES
          · simp only [pyInStrList, hcs, decide_True, if_true]
            cases hp : st.getAttr Attribute.playback_status with
            | none => simp [pyInStrKeyedDict]
            | some pv =>
              cases pv with
              | str p =>
                by_cases hpk : p ∈ VALUE_TO_STATE.map Prod.fst
                · have hfs : (VALUE_TO_STATE.find?
                      (fun q => q.fst == p)).isSome := by
                    rw [List.find?_isSome]
                    obtain ⟨q, hq1, hq2⟩ := List.mem_map.mp hpk
                    exact ⟨q, hq1, by simp [hq2]⟩
                  obtain ⟨r, hr⟩ := Option.isSome_iff_exists.mp hfs
                  simp [pyInStrKeyedDict, hpk, hr]
                · have hfn : VALUE_TO_STATE.find?
                      (fun q => q.fst == p) = none := by
                    rw [List.find?_eq_none]
                    intro x hx
                    simp only [beq_iff_eq]
                    intro hc
                    exact hpk (List.mem_map.mpr ⟨x, hx, hc⟩)
                  simp [pyInStrKeyedDict, hpk, hfn]
              | num n => simp [pyInStrKeyedDict]
              | listv l2 =>
                rw [hp] at h
                simp [pyHashable] at h
              | obj f2 =>
                rw [hp] at h
                simp [pyHashable] at h
          · simp [pyInStrList, hcs]
        | num n => simp [pyInStrList]
        | listv l2 => simp [pyInStrList]
        | obj f2 => simp [pyInStrList]
    · simp [hm]

/-- Witness for C1 (amended) at a concrete snapshot: switch on, source
"hdmi" (not controllable), playback-status "playing" yields ON. -/
theorem state_three_tier_witness :
    SmartThingsMediaPlayer.state (SmartThingsMediaPlayer.init
        [Capability.media_input_source]
        ⟨[(Attribute.switch, AttrValue.str "on"),
          (Attribute.input_source, AttrValue.str "hdmi"),
          (Attribute.playback_status, AttrValue.str "playing")]⟩) =
      Except.ok (stateDerivationSpec [Capability.media_input_source]
        ⟨[(Attribute.switch, AttrValue.str "on"),
          (Attribute.input_source, AttrValue.str "hdmi"),
          (Attribute.playback_status, AttrValue.str "playing")]⟩) :=
  state_three_tier [Capability.media_input_source] _ rfl

/-- Claim C9 (amended): the supported-input-sources accessor returns a bare
list unchanged provided the list does not contain the string "value" as an
element, and extracts the list under the "value" key of a wrapper object;
a bare list containing "value" instead raises (list indexing with a
string). -/
theorem supported_input_sources_normalizes (xs ys : List String)
    (fields : List (String × List String)) (st1 st2 : DeviceStatus)
    (h1 : st1.getAttr Attribute.supported_input_sources =
      some (AttrValue.listv xs))
    (hx : ¬ "value" ∈ xs)
    (h2 : st2.getAttr Attribute.supported_input_sources =
      some (AttrValue.obj fields))
    (hf : fields.find? (fun p => p.fst == "value") = some ("value", ys)) :
    MediaPlayerDeviceEntity.supported_input_sources st1 =
      Except.ok (AttrValue.listv xs) ∧
    MediaPlayerDeviceEntity.supported_input_sources st2 =
      Except.ok (AttrValue.listv ys) := by
  constructor
  · unfold MediaPlayerDeviceEntity.supported_input_sources
    rw [h1]
    simp [hx]
  · unfold MediaPlayerDeviceEntity.supported_input_sources
    rw [h2]
    simp [hf]

/-- Witness for C9 at the concrete inputs of the claim: the bare list
["a","b"] and the wrapper object with a "value" key both normalize to
["a","b"]. -/
theorem supported_input_sources_normalizes_witness :
    MediaPlayerDeviceEntity.supported_input_sources
        ⟨[(Attribute.supported_input_sources,
           AttrValue.listv ["a", "b"])]⟩ =
      Except.ok (AttrValue.listv ["a", "b"]) ∧
    MediaPlayerDeviceEntity.supported_input_sources
        ⟨[(Attribute.supported_input_sources,
           AttrValue.obj [("value", ["a", "b"])])]⟩ =
      Except.ok (AttrValue.listv ["a", "b"]) :=
  supported_input_sources_normalizes ["a", "b"] ["a", "b"]
    [("value", ["a", "b"])] _ _ rfl (by decide) rfl rfl

/-- Claim C9 counterexample: the bare list whose only element is the string
"value" is not normalized to a plain list — the read raises instead
(Python list indices must be integers), refuting the claim's general
statement about arbitrary bare lists. -/
theorem supported_input_sources_value_element_raises :
    MediaPlayerDeviceEntity.supported_input_sources
        ⟨[(Attribute.supported_input_sources, AttrValue.listv ["value"])]⟩ =
      Except.error () ∧
    (Except.error () : Except Unit AttrValue) ≠
      Except.ok (AttrValue.listv ["value"]) :=
  ⟨rfl, by simp⟩

/-- Claim C3 evaluated at the failing inputs: with the gating capability
present but the attribute absent from the snapshot, `volume_level` and
`source_list` raise (`None / 100` and `"value" in None` are TypeErrors)
instead of returning a neutral value; with the gating flag unset the same
reads do return the neutral `None`. -/
theorem absent_attribute_read_raises :
    SmartThingsMediaPlayer.volume_level
        (SmartThingsMediaPlayer.init [Capability.audio_volume] ⟨[]⟩) =
      Except.error () ∧
    SmartThingsMediaPlayer.source_list
        (SmartThingsMediaPlayer.init [Capability.media_input_source] ⟨[]⟩) =
      Except.error () ∧
    SmartThingsMediaPlayer.volume_level
        (SmartThingsMediaPlayer.init [] ⟨[]⟩) = Except.ok none ∧
    SmartThingsMediaPlayer.source_list
        (SmartThingsMediaPlayer.init [] ⟨[]⟩) = Except.ok none :=
  ⟨rfl, rfl, rfl, rfl⟩

/-- Claim C8: issuing set_volume(0.42) with an acknowledged command against
a device with the volume capability stores the raw integer 42 in the
snapshot's volume attribute, and `volume_level` immediately reads back
0.42. -/
theorem set_volume_optimistic_roundtrip (caps : List String)
    (st : DeviceStatus) (h : Capability.audio_volume ∈ caps) :
    (playerAfter (SmartThingsMediaPlayer.init caps st)
        (SmartThingsMediaPlayer.async_set_volume_level
          (SmartThingsMediaPlayer.init caps st) (0.42 : Rat)
          true)).status.getAttr Attribute.volume =
      some (AttrValue.num 42) ∧
    SmartThingsMediaPlayer.volume_level
        (playerAfter (SmartThingsMediaPlayer.init caps st)
          (SmartThingsMediaPlayer.async_set_volume_level
            (SmartThingsMediaPlayer.init caps st) (0.42 : Rat) true)) =
      Except.ok (some (0.42 : Rat)) := by
  have hint : pyInt ((0.42 : Rat) * 100) = 42 := by
    have hq : (0.42 : Rat) * 100 = 42 := by norm_num
    rw [pyInt, hq]
    norm_num
  constructor
  · show (st.update_attribute_value Attribute.volume
        (AttrValue.num (pyInt ((0.42 : Rat) * 100)))).getAttr
        Attribute.volume = some (AttrValue.num 42)
    rw [getAttr_update_same, hint]
  · show SmartThingsMediaPlayer.volume_level
        ⟨caps,
         st.update_attribute_value Attribute.volume
           (AttrValue.num (pyInt ((0.42 : Rat) * 100))),
         SmartThingsMediaPlayer.featuresOf caps⟩ =
      Except.ok (some (0.42 : Rat))
    unfold SmartThingsMediaPlayer.volume_level
    rw [if_pos ((SmartThingsMediaPlayer.flag_volume_set caps).mpr h)]
    unfold MediaPlayerDeviceEntity.audio_volume
    rw [getAttr_update_same, hint]
    simp
    norm_num

/-- Witness for C8 at a concrete device: audio-volume capability present,
empty snapshot. -/
theorem set_volume_optimistic_roundtrip_witness :
    (playerAfter
        (SmartThingsMediaPlayer.init [Capability.audio_volume] ⟨[]⟩)
        (SmartThingsMediaPlayer.async_set_volume_level
          (SmartThingsMediaPlayer.init [Capability.audio_volume] ⟨[]⟩)
          (0.42 : Rat) true)).status.getAttr Attribute.volume =
      some (AttrValue.num 42) ∧
    SmartThingsMediaPlayer.volume_level
        (playerAfter
          (SmartThingsMediaPlayer.init [Capability.audio_volume] ⟨[]⟩)
          (SmartThingsMediaPlayer.async_set_volume_level
            (SmartThingsMediaPlayer.init [Capability.audio_volume] ⟨[]⟩)
            (0.42 : Rat) true)) = Except.ok (some (0.42 : Rat)) :=
  set_volume_optimistic_roundtrip [Capability.audio_volume] ⟨[]⟩
    (by simp)

/-- Witness for C7 at a concrete input: two devices whose capability lists
denote the same set get the same feature bitset. -/
theorem feature_flags_witness :
    SmartThingsMediaPlayer.featuresOf [Capability.switch] =
      SmartThingsMediaPlayer.featuresOf
        [Capability.switch, Capability.switch] :=
  (feature_flags_pure_and_immutable [Capability.switch]
    [Capability.switch, Capability.switch] ⟨[]⟩
    (SmartThingsMediaPlayer.init [] ⟨[]⟩) 0 "" true true true
    (by intro c; simp)).1

end SmartThings


